import Mathlib

/-!
# Verification of `parse_polygons_to_csv.py`

A shallow embedding of the KMZ/KML polygon-to-CSV pipeline
(`src/parse_polygons_to_csv.py`) and proofs about it.

Modelling conventions:
* Python floats are idealised as rationals (`ℚ`).
* Python strings are Lean `String`s; the string manipulation primitives the
  source uses (`str.split`, `str.split(',')`, `str.strip`, `str.lower`) are
  re-implemented structurally over `List Char` so that every definition is
  executable and kernel-reducible.
* Exceptions that propagate out of a function are modelled by `Option`:
  `none` means the Python code raised (aborting the run), `some` is normal
  return.
* The XML layer (`xml.etree.ElementTree`) and its query results are modelled
  by the `Placemark` structure: each field holds exactly the data the source
  reads out of the tree for one `<Placemark>` element.
* The geometric area computation (shapely `Polygon(...).area` composed with
  the pyproj reprojection and the final division by 4046.86, source lines
  158-161 and 164-167) lives in external libraries, not in this repository;
  it is threaded through the pipeline as an explicit function parameter
  `g : GeomCalc` so that theorems quantify over every possible calculator.
-/

namespace KMZ

/-- A 2-D point with rational coordinates, `(lon, lat)`. -/
abbrev Q2 := ℚ × ℚ

/-- The external geometric area calculator: exterior ring and interior rings
to area in acres (shapely + pyproj + `/ 4046.86`, external to the repo). -/
abbrev GeomCalc := List Q2 → List (List Q2) → ℚ

/-! ## String primitives (models of the Python built-ins used by the source) -/

/-- `c` is an ASCII letter or whitespace: the character class `[a-zA-Z\s]`
of the regex on source line 69. -/
def isUnitChar (c : Char) : Bool := c.isAlpha || c.isWhitespace

/-- `c` is a digit or a dot: the character class `[\d\.]` of the regex on
source line 69. -/
def isDigitDot (c : Char) : Bool := c.isDigit || c == '.'

/-- Strip leading and trailing whitespace: model of Python `str.strip()`. -/
def trimL (cs : List Char) : List Char :=
  ((cs.dropWhile Char.isWhitespace).reverse.dropWhile Char.isWhitespace).reverse

/-- Model of Python `str.strip()` at `String` level (source line 136). -/
def pyStrip (s : String) : String := String.mk (trimL s.toList)

/-- Model of Python `str.lower()` (source lines 72 and 78; ASCII data). -/
def toLowerS (s : String) : String := String.mk (s.toList.map Char.toLower)

/-- Accumulator-passing splitter on whitespace, dropping empty chunks:
model of Python `str.split()` with no separator (source line 48; the
preceding `.strip()` is subsumed, since `split()` ignores leading and
trailing whitespace). -/
def splitWsAux : List Char → List Char → List (List Char)
  | [], acc => if acc.isEmpty then [] else [acc.reverse]
  | c :: rest, acc =>
    if c.isWhitespace then
      if acc.isEmpty then splitWsAux rest [] else acc.reverse :: splitWsAux rest []
    else splitWsAux rest (c :: acc)

/-- Split on whitespace runs, no empty chunks: Python `str.split()`. -/
def splitWs (cs : List Char) : List (List Char) := splitWsAux cs []

/-- Split on `','`, keeping empty chunks: model of Python
`str.split(',')` (source line 49). -/
def splitComma : List Char → List (List Char)
  | [] => [[]]
  | ',' :: rest => [] :: splitComma rest
  | c :: rest =>
    match splitComma rest with
    | [] => [[c]]
    | h :: t => (c :: h) :: t

/-- Value of a list of decimal digit characters. -/
def digitsToNat (cs : List Char) : Nat :=
  cs.foldl (fun a c => a * 10 + (c.toNat - 48)) 0

/-- Unsigned decimal: digits, optionally a single dot and more digits,
with at least one digit overall. -/
def pyFloatUnsigned (cs : List Char) : Option ℚ :=
  let ip := cs.takeWhile Char.isDigit
  let rest := cs.dropWhile Char.isDigit
  match rest with
  | [] => if ip.isEmpty then none else some (digitsToNat ip)
  | '.' :: fp =>
    if fp.all Char.isDigit && !(ip.isEmpty && fp.isEmpty) then
      some ((digitsToNat ip : ℚ) + (digitsToNat fp : ℚ) / (10 : ℚ) ^ fp.length)
    else none
  | _ => none

/-- Modelled from the spec: Python's builtin `float(str)` (external to the
repository; the source calls it on lines 51 and 71).  Accepts surrounding
whitespace, an optional sign, then digits with at most one decimal point
("`<number>` is a decimal (digits and at most one decimal point)", spec
section 4.3); `none` models a raised `ValueError`. -/
def pyFloat (s : List Char) : Option ℚ :=
  match trimL s with
  | '-' :: t => (pyFloatUnsigned t).map (fun v => -v)
  | '+' :: t => pyFloatUnsigned t
  | cs => pyFloatUnsigned cs

/-! ## CoordinateRing Parser (`parse_coordinates`, source lines 45-53) -/

/-- One iteration of the `for part in coord_text.strip().split()` loop
(source lines 48-52): tokens with fewer than 2 comma-separated pieces are
skipped; otherwise both of the first two pieces must parse as floats
(`none` models the `ValueError` raised by `float`). -/
def coordStep (coords : List Q2) (part : List Char) : Option (List Q2) :=
  match splitComma part with
  | p0 :: p1 :: _ =>
    match pyFloat p0, pyFloat p1 with
    | some lon, some lat => some (coords ++ [(lon, lat)])
    | _, _ => none
  | _ => some coords

/-- The loop of `parse_coordinates`, threading the accumulated list. -/
def coordLoop : List (List Char) → List Q2 → Option (List Q2)
  | [], coords => some coords
  | part :: rest, coords =>
    match coordStep coords part with
    | none => none
    | some coords2 => coordLoop rest coords2

/-- `parse_coordinates` (source lines 45-53): parse KML coordinate text
into a list of `(lon, lat)` pairs; `none` models an uncaught
`ValueError` from `float`. -/
def parse_coordinates (coord_text : String) : Option (List Q2) :=
  coordLoop (splitWs coord_text.toList) []

/-! ## Polygon Record Extractor (`extract_polygon_coords`, lines 55-65) -/

/-- The list comprehension on source line 63: parse each inner ring whose
text is non-empty, in order, propagating a coordinate-parse failure. -/
def parseInnerRings : List String → Option (List (List Q2))
  | [] => some []
  | t :: ts =>
    match parse_coordinates t with
    | none => none
    | some r =>
      match parseInnerRings ts with
      | none => none
      | some rs => some (r :: rs)

/-- `extract_polygon_coords` (source lines 55-65).  `outerText` is the text
of the `outerBoundaryIs/LinearRing/coordinates` element when that path
exists (`none` when absent, source line 58), `inners` the texts of the
inner-ring coordinate elements.  Result: `none` models an uncaught parse
exception; `some (eo, ints)` returns the exterior (`none` when the outer
path was absent) and the interiors. -/
def extract_polygon_coords (outerText : Option String) (inners : List String) :
    Option (Option (List Q2) × List (List Q2)) :=
  match outerText with
  | none => some (none, [])
  | some t =>
    match parse_coordinates t with
    | none => none
    | some exterior =>
      match parseInnerRings (inners.filter (fun s => s != "")) with
      | none => none
      | some ints => some (some exterior, ints)

/-! ## Area Annotation Parser (`parse_area_from_description`, lines 67-74)

The source uses `re.search(r"Area:\s*([\d\.]+)\s*([a-zA-Z\s]+)", description,
re.IGNORECASE)`.  `matchArea` decides whether the pattern matches anchored at
the start of the character list and, if so, returns the two capture groups,
reproducing the regex engine's semantics for this pattern:
* the literal `Area:` case-insensitively;
* `\s*` is forced to the maximal whitespace run (backtracking it cannot help,
  since the following class `[\d\.]` is disjoint from whitespace);
* group 1 `([\d\.]+)` is the maximal run of digits/dots, nonempty
  (shrinking it cannot help, since what it gives back is neither whitespace
  nor in `[a-zA-Z\s]`);
* the second `\s*` takes the maximal whitespace run `w`; group 2
  `([a-zA-Z\s]+)` then matches the maximal `[a-zA-Z\s]` run if a letter
  follows `w`; otherwise the engine backtracks the `\s*` by one character and
  group 2 captures the single final whitespace character of `w` (failing when
  `w` is empty).
`searchArea` tries each start position left to right: `re.search`. -/

/-- Anchored match of the pattern of source line 69; returns the two capture
groups (number characters, unit characters). -/
def matchArea (cs : List Char) : Option (List Char × List Char) :=
  if (cs.take 5).map Char.toLower = ['a', 'r', 'e', 'a', ':'] then
    let r1 := (cs.drop 5).dropWhile Char.isWhitespace
    let num := r1.takeWhile isDigitDot
    if num.isEmpty then none
    else
      let r2 := r1.dropWhile isDigitDot
      let w := r2.takeWhile Char.isWhitespace
      let r3 := r2.dropWhile Char.isWhitespace
      match r3 with
      | c :: _ =>
        if c.isAlpha then some (num, r3.takeWhile isUnitChar)
        else
          match w.getLast? with
          | some wc => some (num, [wc])
          | none => none
      | [] =>
        match w.getLast? with
        | some wc => some (num, [wc])
        | none => none
  else none

/-- Leftmost match: model of `re.search` for the pattern of line 69. -/
def searchArea : List Char → Option (List Char × List Char)
  | [] => none
  | c :: rest =>
    match matchArea (c :: rest) with
    | some r => some r
    | none => searchArea rest

/-- `parse_area_from_description` (source lines 67-74): `some none` is the
Python `return None` ("no annotation"), `some (some (v, u))` the pair
`(float(match.group(1)), match.group(2).lower())`, and `none` models the
`ValueError` raised by `float` on a capture with more than one dot (it
propagates out of the function, source line 71). -/
def parse_area_from_description (description : String) :
    Option (Option (ℚ × String)) :=
  match searchArea description.toList with
  | some (num, unit) =>
    match pyFloat num with
    | none => none
    | some v => some (some (v, String.mk (unit.map Char.toLower)))
  | none => some none

/-! ## Unit Normalizer (`convert_to_acres`, source lines 76-92) -/

/-- `convert_to_acres` (source lines 76-92): convert a value with unit to
acres; `none` models the raised `ValueError` (unrecognized unit). -/
def convert_to_acres (value : ℚ) (unit : String) : Option ℚ :=
  let u := toLowerS unit
  if u = "acres" then some value
  else if u = "sq mi" ∨ u = "square miles" then some (value * 640)
  else if u = "hectares" then some (value * (247105 / 100000))
  else if u = "sq km" ∨ u = "square kilometers" then some (value * (247105 / 1000))
  else if u ∈ ["sq ft", "square feet", "sqft"] then some (value / 43560)
  else if u ∈ ["sq m", "square meters", "square metres", "sq meter", "sq metre"] then
    some (value / (404686 / 100))
  else none

/-- The alias table exactly as the spec writes it (section 4.4): each row is
the list of lowercased aliases together with the formula to acres. -/
def spec_unit_table : List (List String × (ℚ → ℚ)) :=
  [(["acres"], fun v => v),
   (["sq mi", "square miles"], fun v => v * 640),
   (["hectares"], fun v => v * (247105 / 100000)),
   (["sq km", "square kilometers"], fun v => v * (247105 / 1000)),
   (["sq ft", "square feet", "sqft"], fun v => v / 43560),
   (["sq m", "square meters", "square metres", "sq meter", "sq metre"],
    fun v => v / (404686 / 100))]

/-- First-row lookup in an alias table. -/
def lookupAlias (v : ℚ) (u : String) :
    List (List String × (ℚ → ℚ)) → Option ℚ
  | [] => none
  | (aliases, f) :: rest =>
    if u ∈ aliases then some (f v) else lookupAlias v u rest

/-- The Unit Normalizer as the spec's section 4.4 words it: lowercase the
unit, look it up in the closed table, fail on anything else. -/
def spec_normalize (value : ℚ) (unit : String) : Option ℚ :=
  lookupAlias value (toLowerS unit) spec_unit_table

/-! ## The per-record pipeline (`main`, source lines 129-169) -/

/-- The data the source reads out of one `<Placemark>` element:
`hasPolygon` — whether `pm.find('.//kml:Polygon')` succeeded (line 130);
`nameText` — the text of the `<name>` child when present (line 135);
`descText` — the text of the `<description>` child when present (line 139);
`outerText` — the text at the outer-boundary coordinates path when present
(line 57); `inners` — the texts of the inner-boundary coordinate elements
(line 62). -/
structure Placemark where
  hasPolygon : Bool
  nameText : Option String
  descText : Option String
  outerText : Option String
  inners : List String
deriving DecidableEq

/-- Name resolution, source line 136: strip the name element's text, or the
sentinel when the element is absent. -/
def resolve_name (nameText : Option String) : String :=
  match nameText with
  | some t => pyStrip t
  | none => "Unnamed"

/-- The warning logged on source line 148. -/
def noCoordsMsg (name : String) : String :=
  "Polygon " ++ [Char.ofNat 39].asString ++ name ++ [Char.ofNat 39].asString
    ++ " has no coordinates."

/-- The warning logged on source line 157. -/
def unknownUnitMsg (unit name : String) : String :=
  "Unknown unit " ++ [Char.ofNat 39].asString ++ unit
    ++ [Char.ofNat 39].asString ++ " for polygon "
    ++ [Char.ofNat 39].asString ++ name ++ [Char.ofNat 39].asString
    ++ ", calculating area instead."

/-- Outcome of one iteration of the placemark loop (lines 129-169). -/
inductive Step where
  /-- `continue` on line 132: the placemark has no polygon geometry. -/
  | noPolygon : Step
  /-- `continue` on line 149 after logging the given warning. -/
  | noCoords : String → Step
  /-- A `(name, acres)` pair appended to `results` on line 169, together
  with the warnings logged while producing it. -/
  | row : String → ℚ → List String → Step
deriving DecidableEq

/-- One iteration of the `for pm in root.findall(...)` loop, source lines
129-169, for the placemark `pm` with geometric calculator `g`; `none`
models an uncaught exception aborting the run. -/
def process_placemark (g : GeomCalc) (pm : Placemark) : Option Step :=
  if pm.hasPolygon then
    let name := resolve_name pm.nameText
    let description := pm.descText.getD ""
    match parse_area_from_description description with
    | none => none
    | some area_info =>
      match extract_polygon_coords pm.outerText pm.inners with
      | none => none
      | some (extOpt, interiors) =>
        match extOpt with
        | none => some (Step.noCoords (noCoordsMsg name))
        | some exterior =>
          if exterior.isEmpty then some (Step.noCoords (noCoordsMsg name))
          else
            match area_info with
            | some (value, unit) =>
              match convert_to_acres value unit with
              | some a => some (Step.row name a [])
              | none =>
                some (Step.row name (g exterior interiors)
                  [unknownUnitMsg unit name])
            | none => some (Step.row name (g exterior interiors) [])
  else some Step.noPolygon

/-- The placemark loop threading the `results` accumulator (line 128/169). -/
def recordsLoop (g : GeomCalc) :
    List Placemark → List (String × ℚ) → Option (List (String × ℚ))
  | [], results => some results
  | pm :: rest, results =>
    match process_placemark g pm with
    | none => none
    | some Step.noPolygon => recordsLoop g rest results
    | some (Step.noCoords _) => recordsLoop g rest results
    | some (Step.row n a _) => recordsLoop g rest (results ++ [(n, a)])

/-- All `(name, acres)` results of a run, in document order; `none` models
an uncaught exception. -/
def run_records (g : GeomCalc) (pms : List Placemark) :
    Option (List (String × ℚ)) :=
  recordsLoop g pms []

/-! ## Report Assembler (`main`, source lines 171-190) -/

/-- Fixed-point decimal rendering with two fractional digits: model of the
Python format `f"{x:.2f}"` (source lines 186 and 188), rounding to the
nearest hundredth. -/
def fmt2 (q : ℚ) : String :=
  let n : ℤ := round (q * 100)
  let sgn := if n < 0 then "-" else ""
  let m := n.natAbs
  let f := m % 100
  sgn ++ toString (m / 100) ++ "." ++ (if f < 10 then "0" else "") ++ toString f

/-- The body of the CSV writing loop (source lines 184-190), threading the
`first` flag. -/
def csvBody (total : ℚ) : Bool → List (String × ℚ) → List (List String)
  | _, [] => []
  | first, (name, area) :: rest =>
    [name, fmt2 area, if first then fmt2 total else ""] :: csvBody total false rest

/-- The rows written to `polygon_areas.csv` (source lines 179-190): header,
then one row per result, the first data row carrying the total. -/
def csv_rows (results : List (String × ℚ)) : List (List String) :=
  let total_acres : ℚ := (results.map (fun r => r.2)).sum
  ["Polygon Name", "Total Acreage", "Total"] :: csvBody total_acres true results

/-- The observable outcome of a run (source lines 171-192). -/
inductive RunOutcome where
  /-- An uncaught exception aborted the run. -/
  | crash : RunOutcome
  /-- Line 172: `"No polygons found in the KML file."`, `sys.exit(0)`;
  no CSV file is written. -/
  | noPolygons : RunOutcome
  /-- The CSV report with the given rows was written (lines 181-192). -/
  | report : List (List String) → RunOutcome
deriving DecidableEq

/-- The record-processing and reporting phase of `main` (lines 128-192). -/
def run_main (g : GeomCalc) (pms : List Placemark) : RunOutcome :=
  match run_records g pms with
  | none => RunOutcome.crash
  | some [] => RunOutcome.noPolygons
  | some (r :: rs) => RunOutcome.report (csv_rows (r :: rs))

/-! ## Token-level failure of the CoordinateRing Parser -/

/-- A coordinate token with at least 2 comma-separated components one of
whose first two is not valid numeric text (the situation of source line 51
in which `float` raises). -/
def badToken (p : List Char) : Prop :=
  ∃ p0 p1 r, splitComma p = p0 :: p1 :: r ∧ (pyFloat p0 = none ∨ pyFloat p1 = none)

/-! ## Helper lemmas -/

theorem getLast?_mem_self {α : Type} {l : List α} {a : α}
    (h : l.getLast? = some a) : a ∈ l := by
  obtain ⟨hne, rfl⟩ := List.mem_getLast?_eq_getLast (show a ∈ l.getLast? from h)
  exact List.getLast_mem hne

theorem all_takeWhile_self {α : Type} (p : α → Bool) (l : List α) :
    (l.takeWhile p).all p = true := by
  rw [List.all_eq_true]
  intro a ha
  exact List.mem_takeWhile_imp ha

/-- Shape of the capture groups of an anchored match of the regex of
source line 69: group 1 is a nonempty run of `[\d\.]`, group 2 a nonempty
run of `[a-zA-Z\s]`. -/
theorem matchArea_shape (cs num unit : List Char)
    (h : matchArea cs = some (num, unit)) :
    num ≠ [] ∧ num.all isDigitDot = true ∧
    unit ≠ [] ∧ unit.all isUnitChar = true := by
  simp only [matchArea] at h
  split at h
  · split at h
    · exact absurd h (by simp)
    · rename_i hnum
      have hnum' : ¬ (((cs.drop 5).dropWhile Char.isWhitespace).takeWhile isDigitDot) = [] := by
        simpa [List.isEmpty_iff] using hnum
      split at h
      · split at h
        · rename_i hd tl heq hc
          simp only [Option.some.injEq, Prod.mk.injEq] at h
          obtain ⟨hn, hu⟩ := h
          subst hn hu
          refine ⟨hnum', all_takeWhile_self _ _, ?_, all_takeWhile_self _ _⟩
          rw [heq, List.takeWhile_cons]
          simp [isUnitChar, hc]
        · split at h
          · rename_i wc hw
            simp only [Option.some.injEq, Prod.mk.injEq] at h
            obtain ⟨hn, hu⟩ := h
            subst hn hu
            refine ⟨hnum', all_takeWhile_self _ _, by simp, ?_⟩
            have := List.mem_takeWhile_imp (getLast?_mem_self hw)
            simp [List.all_cons, isUnitChar, this]
          · exact absurd h (by simp)
      · split at h
        · rename_i wc hw
          simp only [Option.some.injEq, Prod.mk.injEq] at h
          obtain ⟨hn, hu⟩ := h
          subst hn hu
          refine ⟨hnum', all_takeWhile_self _ _, by simp, ?_⟩
          have := List.mem_takeWhile_imp (getLast?_mem_self hw)
          simp [List.all_cons, isUnitChar, this]
        · exact absurd h (by simp)
  · exact absurd h (by simp)

/-- Shape of the capture groups of any successful `re.search` of the
pattern of source line 69. -/
theorem searchArea_shape :
    ∀ (cs num unit : List Char), searchArea cs = some (num, unit) →
    num ≠ [] ∧ num.all isDigitDot = true ∧
    unit ≠ [] ∧ unit.all isUnitChar = true := by
  intro cs
  induction cs with
  | nil => intro num unit h; exact absurd h (by simp [searchArea])
  | cons c rest ih =>
    intro num unit h
    simp only [searchArea] at h
    split at h
    · rename_i r hm
      cases h
      exact matchArea_shape _ _ _ hm
    · exact ih num unit h

/-- A bad token makes the loop step of `parse_coordinates` raise,
whatever has been accumulated so far. -/
theorem coordStep_of_badToken {p : List Char} (h : badToken p)
    (acc : List Q2) : coordStep acc p = none := by
  obtain ⟨p0, p1, r, hs, hbad⟩ := h
  unfold coordStep
  rw [hs]
  rcases hbad with h0 | h1
  · cases hp1 : pyFloat p1 <;> simp [h0, hp1]
  · cases hp0 : pyFloat p0 <;> simp [h1, hp0]

/-- A token that is not bad never makes the loop step raise. -/
theorem coordStep_of_not_badToken {p : List Char} (h : ¬ badToken p)
    (acc : List Q2) : ∃ acc2, coordStep acc p = some acc2 := by
  unfold coordStep
  cases hs : splitComma p with
  | nil => exact ⟨acc, rfl⟩
  | cons p0 t =>
    cases t with
    | nil => exact ⟨acc, rfl⟩
    | cons p1 r =>
      cases h0 : pyFloat p0 with
      | none => exact absurd ⟨p0, p1, r, hs, Or.inl h0⟩ h
      | some v0 =>
        cases h1 : pyFloat p1 with
        | none => exact absurd ⟨p0, p1, r, hs, Or.inr h1⟩ h
        | some v1 => exact ⟨acc ++ [(v0, v1)], by simp [h0, h1]⟩

/-- A bad token anywhere in the token list aborts the whole coordinate
parse, whatever the accumulator. -/
theorem coordLoop_of_badToken :
    ∀ (parts : List (List Char)) (acc : List Q2),
    (∃ p ∈ parts, badToken p) → coordLoop parts acc = none := by
  intro parts
  induction parts with
  | nil => intro acc h; simp at h
  | cons q rest ih =>
    intro acc ⟨p, hp, hbad⟩
    rcases List.mem_cons.mp hp with rfl | hmem
    · simp [coordLoop, coordStep_of_badToken hbad]
    · by_cases hq : badToken q
      · simp [coordLoop, coordStep_of_badToken hq]
      · obtain ⟨acc2, hstep⟩ := coordStep_of_not_badToken hq acc
        simp only [coordLoop, hstep]
        exact ih acc2 ⟨p, hmem, hbad⟩

/-- A placemark whose processing raises aborts the whole placemark loop,
whatever the accumulator. -/
theorem recordsLoop_of_crash (g : GeomCalc) :
    ∀ (pms : List Placemark) (acc : List (String × ℚ)) (pm : Placemark),
    pm ∈ pms → process_placemark g pm = none → recordsLoop g pms acc = none := by
  intro pms
  induction pms with
  | nil => intro acc pm h; simp at h
  | cons q rest ih =>
    intro acc pm hmem hcrash
    rcases List.mem_cons.mp hmem with rfl | hmem2
    · simp [recordsLoop, hcrash]
    · cases hq : process_placemark g q with
      | none => simp [recordsLoop, hq]
      | some s =>
        cases s <;> simp only [recordsLoop, hq] <;> exact ih _ pm hmem2 hcrash

/-! ## Claims -/

/-- C1: For every polygon record, the acres value is resolved by the fallback
chain of source lines 152-167: with an annotation whose unit the normalizer
accepts, the normalizer's result is the acres value; with an annotation whose
unit the normalizer rejects, the geometric area calculator's result is used
and a warning naming the unit and the polygon is logged; with no annotation,
the geometric area calculator is used directly. -/
theorem c1_area_fallback_chain : ∀ (g : GeomCalc) (pm : Placemark)
    (ai : Option (ℚ × String)) (ext : List Q2) (ints : List (List Q2)),
    pm.hasPolygon = true →
    parse_area_from_description (pm.descText.getD "") = some ai →
    extract_polygon_coords pm.outerText pm.inners = some (some ext, ints) →
    ext ≠ [] →
    (∀ v u a, ai = some (v, u) → convert_to_acres v u = some a →
       process_placemark g pm = some (Step.row (resolve_name pm.nameText) a [])) ∧
    (∀ v u, ai = some (v, u) → convert_to_acres v u = none →
       process_placemark g pm = some (Step.row (resolve_name pm.nameText) (g ext ints)
         [unknownUnitMsg u (resolve_name pm.nameText)])) ∧
    (ai = none →
       process_placemark g pm = some (Step.row (resolve_name pm.nameText) (g ext ints) [])) := by
  intro g pm ai ext ints hpoly hparse hext hne
  have hne' : ext.isEmpty = false := by
    cases ext with
    | nil => exact absurd rfl hne
    | cons h t => rfl
  refine ⟨?_, ?_, ?_⟩
  · intro v u a hai hconv
    subst hai
    simp only [process_placemark, hpoly, if_true, hparse, hext, hne', hconv,
      Bool.false_eq_true, if_false]
  · intro v u hai hconv
    subst hai
    simp only [process_placemark, hpoly, if_true, hparse, hext, hne', hconv,
      Bool.false_eq_true, if_false]
  · intro hai
    subst hai
    simp only [process_placemark, hpoly, if_true, hparse, hext, hne',
      Bool.false_eq_true, if_false]

/-- C1 witness: a record annotated `Area: 5 furlongs` falls back to the
geometric calculator (here constantly 0) and logs the warning naming
`furlongs` and the polygon. -/
theorem c1_area_fallback_chain_witness :
    process_placemark (fun _ _ => 0) ⟨true, none, some "Area: 5 furlongs", some "0,0 1,0 1,1", []⟩ =
      some (Step.row "Unnamed" 0 [unknownUnitMsg "furlongs" "Unnamed"]) := by
  have h := (c1_area_fallback_chain (fun _ _ => 0)
      ⟨true, none, some "Area: 5 furlongs", some "0,0 1,0 1,1", []⟩
      (some (5, "furlongs")) [(0, 0), (1, 0), (1, 1)] []
      (by decide) (by decide) (by decide) (by decide)).2.1
      5 "furlongs" rfl (by decide)
  exact h.trans (by decide)

/-- C2: The unit normalizer `convert_to_acres` computes exactly the spec's
closed conversion table after lowercasing the unit, and fails (returns
`none`, the raised `ValueError`) on every unit outside the table. -/
theorem c2_unit_table_closed : ∀ (v : ℚ) (u : String),
    convert_to_acres v u = spec_normalize v u := by
  intro v u
  unfold convert_to_acres spec_normalize spec_unit_table
  simp only [lookupAlias, List.mem_cons, List.mem_singleton, List.not_mem_nil, or_false]

/-- C3 counterexample: a placemark whose name element text is whitespace-only
yields the row name `""`, not the sentinel `"Unnamed"` (source line 136 only
defaults when the element is absent). -/
theorem c3_name_default_counterexample :
    process_placemark (fun _ _ => 0) ⟨true, some "   ", none, some "0,0 0,1 1,1", []⟩ =
      some (Step.row "" 0 []) ∧ ("" : String) ≠ "Unnamed" := by
  constructor
  · decide
  · decide

/-- C3 amended: every report row's name is the name element's text stripped
of surrounding whitespace when the element is present — even when stripping
leaves the empty string — and is the sentinel `"Unnamed"` exactly when the
name element is absent. -/
theorem c3_name_resolution_amended : ∀ (g : GeomCalc) (pm : Placemark)
    (name : String) (acres : ℚ) (ws : List String),
    process_placemark g pm = some (Step.row name acres ws) →
    name = (match pm.nameText with
            | some t => pyStrip t
            | none => "Unnamed") := by
  intro g pm name acres ws h
  simp only [process_placemark] at h
  split at h
  · split at h
    · exact absurd h (by simp)
    · split at h
      · exact absurd h (by simp)
      · split at h
        · exact absurd h (by simp)
        · split at h
          · exact absurd h (by simp)
          · split at h
            · split at h
              · simp only [Option.some.injEq, Step.row.injEq] at h
                exact h.1.symm
              · simp only [Option.some.injEq, Step.row.injEq] at h
                exact h.1.symm
            · simp only [Option.some.injEq, Step.row.injEq] at h
              exact h.1.symm
  · exact absurd h (by simp)

/-- C3 amended witness: a record named `"  Field A  "` reports the stripped
name `"Field A"`. -/
theorem c3_name_resolution_amended_witness :
    ("Field A" : String) = pyStrip "  Field A  " :=
  c3_name_resolution_amended (fun _ _ => 0)
    ⟨true, some "  Field A  ", none, some "0,0 0,1 1,1", []⟩
    "Field A" 0 [] (by decide)

/-- C4 counterexample: a polygon whose exterior ring parses to only 2 points
is not rejected: the pipeline applies the geometric area calculator (here
constantly 5) to it and emits a row carrying the calculator's value. -/
theorem c4_degenerate_ring_counterexample :
    parse_coordinates "1,2 3,4" = some [(1, 2), (3, 4)] ∧
    process_placemark (fun _ _ => 5) ⟨true, none, none, some "1,2 3,4", []⟩ =
      some (Step.row "Unnamed" 5 []) := by
  constructor
  · decide
  · decide

/-- C4 amended: the skip-with-warning rejection of source lines 147-149
fires exactly for an absent outer-boundary path or an exterior parsing to
zero points; rings with 1 or 2 points are not rejected and proceed to area
determination. -/
theorem c4_rejection_iff_empty_exterior : ∀ (g : GeomCalc) (pm : Placemark)
    (ai : Option (ℚ × String)) (extres : Option (List Q2) × List (List Q2)),
    pm.hasPolygon = true →
    parse_area_from_description (pm.descText.getD "") = some ai →
    extract_polygon_coords pm.outerText pm.inners = some extres →
    (process_placemark g pm = some (Step.noCoords (noCoordsMsg (resolve_name pm.nameText)))
      ↔ (extres.1 = none ∨ extres.1 = some [])) := by
  intro g pm ai extres hpoly hparse hext
  obtain ⟨extOpt, ints⟩ := extres
  simp only [process_placemark, hpoly, if_true, hparse, hext]
  cases extOpt with
  | none => simp
  | some ext =>
    cases ext with
    | nil => simp
    | cons c t =>
      simp only [List.isEmpty_cons, Bool.false_eq_true, if_false]
      constructor
      · intro h
        cases ai with
        | none => simp at h
        | some vu =>
          obtain ⟨v, u⟩ := vu
          cases hc : convert_to_acres v u <;> simp [hc] at h
      · intro h
        rcases h with h | h <;> simp at h

/-- C4 amended witness: a record with no outer-boundary path is skipped with
the no-coordinates warning. -/
theorem c4_rejection_iff_empty_exterior_witness :
    process_placemark (fun _ _ => 0) ⟨true, some "P", none, none, []⟩ =
      some (Step.noCoords (noCoordsMsg "P")) := by
  have h := (c4_rejection_iff_empty_exterior (fun _ _ => 0)
      ⟨true, some "P", none, none, []⟩ none (none, [])
      (by decide) (by decide) (by decide)).mpr (Or.inl rfl)
  exact h.trans (by decide)

/-- C5 counterexample: on `"Area: 1.2.3 acres"` the regex of source line 69
captures the multi-dot run `1.2.3` (its number class is `[\d\.]+`, not
"digits with at most one decimal point"), so `float` raises `ValueError`
(modelled by `none`): the parser neither returns a pair nor the
no-annotation result, contradicting the claimed total contract. -/
theorem c5_multidot_counterexample :
    parse_area_from_description "Area: 1.2.3 acres" = none := by
  decide

/-- C5 amended: the parser finds the first (leftmost) match of the
case-insensitive pattern `Area: <number> <unit>` where `<number>` is a
nonempty run of digits and dots and `<unit>` is a nonempty run of letters
and whitespace; on a match it returns `(float(<number>), lowercased <unit>)`
when `<number>` parses as a decimal and raises (aborting the run) when it
does not — e.g. on more than one dot; it returns the no-annotation result
when no match exists anywhere in the text. -/
theorem c5_area_pattern_amended : ∀ (d : String),
    (searchArea d.toList = none → parse_area_from_description d = some none) ∧
    (∀ num unit, searchArea d.toList = some (num, unit) →
      (num ≠ [] ∧ num.all isDigitDot = true ∧
       unit ≠ [] ∧ unit.all isUnitChar = true) ∧
      parse_area_from_description d =
        (match pyFloat num with
         | none => none
         | some v => some (some (v, String.mk (unit.map Char.toLower))))) := by
  intro d
  constructor
  · intro h
    unfold parse_area_from_description
    rw [h]
  · intro num unit h
    refine ⟨searchArea_shape _ _ _ h, ?_⟩
    unfold parse_area_from_description
    rw [h]

/-- C5 amended witness: `"Area: 7 acres"` parses to the pair `(7, "acres")`. -/
theorem c5_area_pattern_amended_witness :
    parse_area_from_description "Area: 7 acres" = some (some (7, "acres")) := by
  have h := ((c5_area_pattern_amended "Area: 7 acres").2
      "7".toList "acres".toList (by decide)).2
  exact h.trans (by decide)

/-- C6: A whitespace-separated token with at least 2 comma-separated
components one of whose first two is not valid numeric text makes the
coordinate parse fail as a whole, the failure propagates out of the
record's processing, and the whole run crashes — the token is not skipped
and the failure is not isolated to one record. -/
theorem c6_coordinate_failure_fatal : ∀ (g : GeomCalc) (pms : List Placemark)
    (pm : Placemark) (text : String) (ai : Option (ℚ × String)) (p : List Char),
    pm ∈ pms → pm.hasPolygon = true →
    parse_area_from_description (pm.descText.getD "") = some ai →
    pm.outerText = some text →
    p ∈ splitWs text.toList → badToken p →
    parse_coordinates text = none ∧
    process_placemark g pm = none ∧
    run_main g pms = RunOutcome.crash := by
  intro g pms pm text ai p hmem hpoly hparse houter hp hbad
  have hpc : parse_coordinates text = none :=
    coordLoop_of_badToken (splitWs text.toList) [] ⟨p, hp, hbad⟩
  have hext : extract_polygon_coords pm.outerText pm.inners = none := by
    rw [houter]
    simp [extract_polygon_coords, hpc]
  have hproc : process_placemark g pm = none := by
    simp only [process_placemark, hpoly, if_true, hparse, hext]
  refine ⟨hpc, hproc, ?_⟩
  unfold run_main run_records
  rw [recordsLoop_of_crash g pms [] pm hmem hproc]

/-- C6 witness: the token `x,y` in the coordinate text `"1,2 x,y"` crashes
the whole run. -/
theorem c6_coordinate_failure_fatal_witness :
    parse_coordinates "1,2 x,y" = none ∧
    process_placemark (fun _ _ => 0) ⟨true, none, none, some "1,2 x,y", []⟩ = none ∧
    run_main (fun _ _ => 0) [⟨true, none, none, some "1,2 x,y", []⟩] = RunOutcome.crash :=
  c6_coordinate_failure_fatal (fun _ _ => 0)
    [⟨true, none, none, some "1,2 x,y", []⟩]
    ⟨true, none, none, some "1,2 x,y", []⟩
    "1,2 x,y" none ['x', ',', 'y']
    (by decide) (by decide) (by decide) (by decide) (by decide)
    ⟨['x'], ['y'], [], by decide, Or.inl (by decide)⟩

/-- C7: For every non-empty result sequence, the report is the header row
followed by one row per result in order; each row is the name, the acres
rendered to 2 decimal places and an empty third field, except that the
first data row's third field carries the exact unrounded total rendered to
2 decimal places. -/
theorem c7_report_rows_structure : ∀ (n : String) (a : ℚ) (rest : List (String × ℚ)),
    csv_rows ((n, a) :: rest) =
      ["Polygon Name", "Total Acreage", "Total"] ::
      [n, fmt2 a, fmt2 (a + (rest.map (fun r => r.2)).sum)] ::
      rest.map (fun r => [r.1, fmt2 r.2, ""]) := by
  have body : ∀ (total : ℚ) (l : List (String × ℚ)),
      csvBody total false l = l.map (fun r => [r.1, fmt2 r.2, ""]) := by
    intro total l
    induction l with
    | nil => rfl
    | cons h t ih => cases h with | mk n a => simp [csvBody, ih]
  intro n a rest
  simp [csv_rows, csvBody, body]

/-- C8: A run over placemarks yielding zero valid polygon records produces
the distinct no-polygons success outcome: not a crash and not a report (so
no rows, not even a header-only table). -/
theorem c8_empty_result_outcome : ∀ (g : GeomCalc) (pms : List Placemark),
    run_records g pms = some [] →
    run_main g pms = RunOutcome.noPolygons ∧
    run_main g pms ≠ RunOutcome.crash ∧
    ∀ rows, run_main g pms ≠ RunOutcome.report rows := by
  intro g pms h
  unfold run_main
  rw [h]
  exact ⟨rfl, by simp, by simp⟩

/-- C8 witness: the empty document yields the no-polygons outcome. -/
theorem c8_empty_result_outcome_witness :
    run_main (fun _ _ => 0) [] = RunOutcome.noPolygons ∧
    run_main (fun _ _ => 0) [] ≠ RunOutcome.crash := by
  have h := c8_empty_result_outcome (fun _ _ => 0) [] rfl
  exact ⟨h.1, h.2.1⟩

/-- C9: For a record whose annotation's unit the normalizer accepts, the
reported acres is the normalizer's result and is independent of the ring
coordinates and of the geometric calculator: two records identical except
for their (successfully parsed, non-empty) coordinate text process to the
same row under any two calculators, so the calculator is never consulted. -/
theorem c9_annotation_independent_of_coords : ∀ (g1 g2 : GeomCalc)
    (pm1 pm2 : Placemark) (v : ℚ) (u : String) (a : ℚ)
    (e1 : List Q2) (i1 : List (List Q2)) (e2 : List Q2) (i2 : List (List Q2)),
    pm1.hasPolygon = true → pm2.hasPolygon = true →
    pm1.nameText = pm2.nameText → pm1.descText = pm2.descText →
    parse_area_from_description (pm1.descText.getD "") = some (some (v, u)) →
    convert_to_acres v u = some a →
    extract_polygon_coords pm1.outerText pm1.inners = some (some e1, i1) → e1 ≠ [] →
    extract_polygon_coords pm2.outerText pm2.inners = some (some e2, i2) → e2 ≠ [] →
    process_placemark g1 pm1 = some (Step.row (resolve_name pm1.nameText) a []) ∧
    process_placemark g1 pm1 = process_placemark g2 pm2 := by
  intro g1 g2 pm1 pm2 v u a e1 i1 e2 i2 h1 h2 hname hdesc hparse hconv hx1 hne1 hx2 hne2
  have hne1' : e1.isEmpty = false := by
    cases e1 with
    | nil => exact absurd rfl hne1
    | cons h t => rfl
  have hne2' : e2.isEmpty = false := by
    cases e2 with
    | nil => exact absurd rfl hne2
    | cons h t => rfl
  have hparse2 : parse_area_from_description (pm2.descText.getD "") = some (some (v, u)) := by
    rw [← hdesc]
    exact hparse
  constructor
  · simp only [process_placemark, h1, if_true, hparse, hx1, hne1', hconv,
      Bool.false_eq_true, if_false]
  · simp only [process_placemark, h1, h2, if_true, hparse, hparse2, hx1, hx2,
      hne1', hne2', hconv, Bool.false_eq_true, if_false, hname]

/-- C9 witness: two records sharing name and annotated description but with
different coordinates, processed under two different calculators, yield the
same row, carrying the normalizer's value. -/
theorem c9_annotation_independent_of_coords_witness :
    process_placemark (fun _ _ => 0)
        ⟨true, some "F", some "Area: 2 acres", some "0,0 1,0 1,1", []⟩ =
      process_placemark (fun _ _ => 5)
        ⟨true, some "F", some "Area: 2 acres", some "5,5 6,5 6,6 5,6", []⟩ ∧
    process_placemark (fun _ _ => 0)
        ⟨true, some "F", some "Area: 2 acres", some "0,0 1,0 1,1", []⟩ =
      some (Step.row "F" 2 []) := by
  have h := c9_annotation_independent_of_coords (fun _ _ => 0) (fun _ _ => 5)
    ⟨true, some "F", some "Area: 2 acres", some "0,0 1,0 1,1", []⟩
    ⟨true, some "F", some "Area: 2 acres", some "5,5 6,5 6,6 5,6", []⟩
    2 "acres" 2 [(0, 0), (1, 0), (1, 1)] [] [(5, 5), (6, 5), (6, 6), (5, 6)] []
    (by decide) (by decide) rfl rfl (by decide) (by decide)
    (by decide) (by decide) (by decide) (by decide)
  exact ⟨h.2, h.1.trans (by decide)⟩

/-- C10 counterexample: a record whose outer path is present but whose
exterior parses to zero points is not always treated identically to one
whose outer path is absent: with an interior ring text that fails to parse,
the former crashes the run while the latter is skipped with the warning. -/
theorem c10_zero_point_counterexample :
    process_placemark (fun _ _ => 0) ⟨true, some "P", none, some "x", ["a,b"]⟩ = none ∧
    process_placemark (fun _ _ => 0) ⟨true, some "P", none, none, ["a,b"]⟩ =
      some (Step.noCoords (noCoordsMsg "P")) := by
  constructor
  · decide
  · decide

/-- C10 amended: provided every non-empty interior ring text parses
successfully, a record whose outer-boundary path is present but whose
exterior coordinate text parses to zero points is treated identically to
one whose outer path is absent; in particular (when the record has a
polygon and the description parse does not raise) it is skipped with the
warning naming the polygon and produces no report row. -/
theorem c10_zero_point_like_missing_amended : ∀ (g : GeomCalc) (pm : Placemark)
    (t : String),
    pm.outerText = some t →
    parse_coordinates t = some [] →
    parseInnerRings (pm.inners.filter (fun s => s != "")) ≠ none →
    process_placemark g pm = process_placemark g { pm with outerText := none } ∧
    (pm.hasPolygon = true → ∀ ai,
      parse_area_from_description (pm.descText.getD "") = some ai →
      process_placemark g pm = some (Step.noCoords (noCoordsMsg (resolve_name pm.nameText)))) := by
  intro g pm t houter hpc hinn
  obtain ⟨ints, hints⟩ := Option.ne_none_iff_exists'.mp hinn
  have hext : extract_polygon_coords pm.outerText pm.inners = some (some [], ints) := by
    rw [houter]
    simp [extract_polygon_coords, hpc, hints]
  have hextB : extract_polygon_coords (none : Option String) pm.inners = some (none, []) := rfl
  constructor
  · cases hp : pm.hasPolygon with
    | false => simp [process_placemark, hp]
    | true =>
      cases hd : parse_area_from_description (pm.descText.getD "") with
      | none => simp [process_placemark, hp, hd]
      | some ai => simp [process_placemark, hp, hd, hext, hextB]
  · intro hp ai hd
    simp only [process_placemark, hp, if_true, hd, hext, List.isEmpty_nil, if_true]

/-- C10 amended witness: a record with outer text parsing to zero points and
no interior rings is processed identically to the same record with the
outer path absent, and is skipped with the no-coordinates warning. -/
theorem c10_zero_point_like_missing_amended_witness :
    process_placemark (fun _ _ => 0) ⟨true, some "Q", none, some "x y", []⟩ =
      process_placemark (fun _ _ => 0) ⟨true, some "Q", none, none, []⟩ ∧
    process_placemark (fun _ _ => 0) ⟨true, some "Q", none, some "x y", []⟩ =
      some (Step.noCoords (noCoordsMsg "Q")) := by
  have h := c10_zero_point_like_missing_amended (fun _ _ => 0)
    ⟨true, some "Q", none, some "x y", []⟩ "x y" rfl (by decide) (by decide)
  exact ⟨h.1, (h.2 rfl none (by decide)).trans (by decide)⟩

end KMZ
